import Mathlib

/-!
# Service detail page of the console

A shallow embedding of `src/pages/clusters/containers/Workload/Services/Detail/index.jsx`
(the `ServiceDetail` React component): the fetch orchestration `fetchData`, the
operations list `getOperations`, the attribute list `getAttrs` and the two
rendering helpers `renderDNS` and `renderEndpoints`.

JavaScript values are embedded by their shape in the data model: a property
that may be `undefined` is an `Option`, an array is a `List`, a number that is
a port is a `Nat`.  React elements are embedded as records of their key and
children.
-/

namespace ServiceDetail

/-! ## JavaScript primitives used by the component -/

/-- Interpolation of a string-or-undefined value inside a template literal:
`undefined` is spelled out. -/
def templateStr : Option String → String
  | some s => s
  | none => "undefined"

/-- Rendering of a string-or-undefined JSX child: React renders nothing for
`undefined`. -/
def jsxChild : Option String → String
  | some s => s
  | none => ""

/-- Truthiness of a string-or-undefined value: `undefined` and the empty
string are falsy. -/
def truthyStr : Option String → Bool
  | some s => decide (s ≠ "")
  | none => false

/-- Truthiness of a number-or-undefined value: `undefined` and `0` are
falsy. -/
def truthyNum : Option Nat → Bool
  | some n => decide (n ≠ 0)
  | none => false

/-- Interpolation of a number-or-undefined value inside a template literal:
a natural number is written in decimal. -/
def templateNum : Option Nat → String
  | some n => toString n
  | none => "undefined"

/-- The call `xs.join(sep)` on an array of strings. -/
def join (xs : List String) (sep : String) : String :=
  sep.intercalate xs

/-- The lodash `isEmpty` on a string: it has no characters. -/
def isEmptyStr (s : String) : Bool :=
  decide (s = "")

/-! ## Data model -/

/-- A label mapping, as the list of its entries in key order. -/
abbrev Selector := List (String × String)

/-- The route parameters `this.props.match.params`. -/
structure Params where
  cluster : Option String
  «namespace» : Option String
  name : Option String
deriving DecidableEq

/-- The service snapshot `this.store.detail`: the names of its own enumerable
properties, and the value of every property the component reads (`none` is
`undefined`). -/
structure Detail where
  ownKeys : List String
  name : Option String
  «namespace» : Option String
  type : Option String
  specType : Option String
  externalName : Option String
  loadBalancerIngress : Option String
  externalIPs : Option (List String)
  annotations : Option (List (String × String))
  application : Option String
  clusterIP : Option String
  sessionAffinity : Option String
  selector : Option Selector
  createTime : Option String
  updateTime : Option String
  creator : Option String
deriving DecidableEq

/-- The empty object, the store's snapshot before the first fetch resolves. -/
def Detail.empty : Detail :=
  { ownKeys := [], name := none, «namespace» := none, type := none, specType := none,
    externalName := none, loadBalancerIngress := none, externalIPs := none,
    annotations := none, application := none, clusterIP := none,
    sessionAffinity := none, selector := none, createTime := none,
    updateTime := none, creator := none }

/-- The lodash `isEmpty` on an object: it has no own enumerable property. -/
def isEmpty (detail : Detail) : Bool :=
  detail.ownKeys.isEmpty

/-- The part of `this.store.workloads` the component reads. -/
structure Workloads where
  isLoading : Bool
  type : Option String
deriving DecidableEq

/-- A pod of `this.store.pods.data`. -/
structure Pod where
  uid : Option String
  name : Option String
deriving DecidableEq

/-- The slot `this.store.pods`. -/
structure Pods where
  isLoading : Bool
  data : List Pod
deriving DecidableEq

/-- An entry of a subset's `addresses`. -/
structure Address where
  ip : Option String
deriving DecidableEq

/-- An entry of a subset's `ports`. -/
structure Port where
  port : Option Nat
deriving DecidableEq

/-- An endpoint subset; the data model gives every subset both sequences. -/
structure Subset where
  addresses : List Address
  ports : List Port
deriving DecidableEq

/-- The slot `this.store.endpoints`. -/
structure Endpoints where
  isLoading : Bool
  data : List Subset
deriving DecidableEq

/-- The observable fields of `this.store` the component reads. -/
structure Store where
  detail : Detail
  workloads : Workloads
  pods : Pods
  endpoints : Endpoints
deriving DecidableEq

/-- Collaborators of the component that live outside this file: the
translation function `t`, the string method `toUpperCase`, the time formatter
`getLocalTime(x).format(fmt)` and the separator `joinSelector` joins with. -/
structure Env where
  t : String → String
  toUpperCase : String → String
  formatLocalTime : Option String → String → String
  selectorSep : String

/-- Modelled from the spec: `joinSelector` (imported from `utils`) is not among
the sources.  The spec describes its result as the label mapping "rendered as a
joined "key=value" list"; the separator is not stated and is the parameter
`sep`.  An absent selector is rendered like the empty mapping. -/
def joinSelector (sep : String) (selector : Option Selector) : String :=
  join ((selector.getD []).map fun entry => entry.1 ++ "=" ++ entry.2) sep

namespace SERVICE_TYPES

/-- Modelled from the spec: the table `SERVICE_TYPES` (imported from
`utils/constants`) is not among the sources.  The spec gives the gateway
operation as visible only when the resource type equals "VirtualIP". -/
def VirtualIP : String := "VirtualIP"

end SERVICE_TYPES

/-! ## React elements -/

/-- The `key` of a rendered paragraph: a pod's uid or an array index. -/
inductive JSXKey where
  | uid (u : Option String)
  | index (i : Nat)
deriving DecidableEq

/-- A paragraph element `<p key={key}>{children}</p>`. -/
structure Paragraph where
  key : JSXKey
  children : List (Option String)
deriving DecidableEq

/-- The text a paragraph shows: its children rendered one after the other. -/
def Paragraph.text (p : Paragraph) : String :=
  String.join (p.children.map jsxChild)

/-- What `renderDNS` returns: a string, or an array of paragraphs. -/
inductive DNSView where
  | text (s : String)
  | lines (ps : List Paragraph)
deriving DecidableEq

/-- What `renderEndpoints` returns: `null`, the `<Loading size={..} />`
placeholder, a string, or an array of paragraphs. -/
inductive EndpointsView where
  | null
  | loading (size : Nat)
  | text (s : String)
  | lines (ps : List Paragraph)
deriving DecidableEq

/-! ## `renderDNS` and `renderEndpoints` -/

/-- The method `renderDNS`. -/
def renderDNS (store : Store) : DNSView :=
  let service := store.detail
  let workloads := store.workloads
  let pods := store.pods
  if workloads.isLoading ||
      decide (workloads.type ≠ some "statefulsets") ||
      pods.isLoading ||
      decide (pods.data.length = 0) then
    .text (templateStr service.name ++ "." ++ templateStr service.«namespace»)
  else
    .lines (pods.data.map fun pod =>
      { key := .uid pod.uid
        children := [pod.name, some ".", service.name, some ".", service.«namespace»] })

/-- The body of the innermost `forEach` of `renderEndpoints`: push `ip:port`
when both are truthy. -/
def pushEndpoint (addr : Address) (endpoints : Array String) (port : Port) : Array String :=
  if truthyStr addr.ip && truthyNum port.port then
    endpoints.push (templateStr addr.ip ++ ":" ++ templateNum port.port)
  else
    endpoints

/-- The three nested `forEach` loops of `renderEndpoints`, starting from the
array `endpoints`. -/
def collectEndpoints (data : List Subset) (endpoints : Array String) : Array String :=
  data.foldl (fun acc subset =>
    subset.addresses.foldl (fun acc addr =>
      subset.ports.foldl (pushEndpoint addr) acc) acc) endpoints

/-- The method `renderEndpoints`. -/
def renderEndpoints (store : Store) : EndpointsView :=
  if store.detail.type = some "Headless(ExternalName)" then
    .null
  else
    let isLoading := store.endpoints.isLoading
    let data := store.endpoints.data
    if isLoading then
      .loading 12
    else if data.length = 0 then
      .text "-"
    else
      let endpoints := collectEndpoints data #[]
      .lines (endpoints.toList.enum.map fun entry =>
        { key := .index entry.1, children := [some entry.2] })

/-- The endpoint line of an (address, port) pair as the specification words
it: `ip:port` when the ip and the port number are both truthy, nothing
otherwise. -/
def endpointLine (addr : Address) (port : Port) : Option String :=
  match addr.ip, port.port with
  | some ip, some n => if ip ≠ "" ∧ n ≠ 0 then some (ip ++ ":" ++ toString n) else none
  | _, _ => none

/-- The flat endpoint list as the specification words it: for every subset,
for every address, for every port, the line of the pair when there is one. -/
def flattenedEndpoints (data : List Subset) : List String :=
  data.flatMap fun subset =>
    subset.addresses.flatMap fun addr =>
      subset.ports.filterMap (endpointLine addr)

/-! ## `fetchData` -/

/-- A request the component issues to its store. -/
inductive Request where
  | fetchDetail (params : Params)
  | fetchWorkloads («namespace» : Option String) (labelSelector : String)
  | fetchPods («namespace» : Option String) (labelSelector : String)
  | fetchEndpoints (params : Params)
deriving DecidableEq

/-- How the promise returned by `this.store.fetchDetail` settles: fulfilled,
with the snapshot then found in `this.store.detail`; rejected; or never. -/
inductive FetchOutcome where
  | fulfilled (detail : Detail)
  | rejected
  | pending
deriving DecidableEq

/-- The callback `fetchData` passes to `then`: the requests it issues, given
the snapshot in `this.store.detail`. -/
def onDetailFetched (env : Env) (detail : Detail) : List Request :=
  let labelSelector := joinSelector env.selectorSep detail.selector
  if !isEmptyStr labelSelector then
    [.fetchWorkloads detail.«namespace» labelSelector,
     .fetchPods detail.«namespace» labelSelector]
  else
    []

/-- The method `fetchData`, as the sequence of requests issued: the two calls
made synchronously, then those of the `then` callback, which runs only when
the detail promise is fulfilled. -/
def fetchData (env : Env) (params : Params) (outcome : FetchOutcome) : List Request :=
  [.fetchDetail params, .fetchEndpoints params] ++
    match outcome with
    | .fulfilled detail => onDetailFetched env detail
    | .rejected => []
    | .pending => []

/-! ## `getOperations` -/

/-- A value in the payload of a triggered action. -/
inductive PayloadValue where
  | text (s : String)
  | optText (s : Option String)
  | detail (d : Detail)
  | fetchData
deriving DecidableEq

/-- A call `this.trigger(action, payload)`. -/
structure TriggerCall where
  action : String
  payload : List (String × PayloadValue)
deriving DecidableEq

/-- An operation descriptor; `«show»` is absent on the descriptors that do not
define it, and `onClick` is given the argument the handler is called with. -/
structure Operation where
  key : String
  icon : String
  text : String
  action : String
  «show» : Option (Detail → Bool)
  onClick : Detail → TriggerCall

/-- The getter `name`. -/
def name : String := "Service"

/-- The method `getOperations`. -/
def getOperations (env : Env) (store : Store) : List Operation :=
  [ { key := "edit"
      icon := "pen"
      text := env.t "Edit Info"
      action := "edit"
      «show» := none
      onClick := fun _ =>
        { action := "resource.baseinfo.edit"
          payload := [("type", .text (env.t name)), ("detail", .detail store.detail),
            ("success", .fetchData)] } },
    { key := "editService"
      icon := "network-router"
      text := env.t "Edit Service"
      action := "edit"
      «show» := none
      onClick := fun _ =>
        { action := "service.edit"
          payload := [("detail", .detail store.detail)] } },
    { key := "editGateway"
      icon := "ip"
      text := env.t "Edit Internet Access"
      action := "edit"
      «show» := some fun record => decide (record.type = some SERVICE_TYPES.VirtualIP)
      onClick := fun item =>
        { action := "service.gateway.edit"
          payload := [("detail", .detail item)] } },
    { key := "editYaml"
      icon := "pen"
      text := env.t "Edit YAML"
      action := "edit"
      «show» := none
      onClick := fun _ =>
        { action := "resource.yaml.edit"
          payload := [("detail", .detail store.detail)] } },
    { key := "delete"
      icon := "trash"
      text := env.t "Delete"
      action := "delete"
      «show» := none
      onClick := fun _ =>
        { action := "resource.delete"
          payload := [("type", .text (env.t name)), ("resource", .optText store.detail.name)] } } ]

/-! ## `getAttrs` -/

/-- The value of an attribute: a string or `undefined`; the type label
`<span>{label}<span className="text-desc">{desc}</span></span>`; or the result
of one of the two rendering helpers. -/
inductive AttrValue where
  | text (v : Option String)
  | typeLabel (label : String) (desc : List (Option String))
  | dns (v : DNSView)
  | endpoints (v : EndpointsView)
deriving DecidableEq

/-- An entry of the attribute list. -/
structure Attr where
  name : String
  value : AttrValue
deriving DecidableEq

/-- The `let externalIP` block of `getAttrs`. -/
def externalIP (detail : Detail) : Option String :=
  if detail.type = some "ExternalName" then
    detail.externalName
  else if detail.specType = some "LoadBalancer" then
    detail.loadBalancerIngress
  else
    match detail.externalIPs with
    | some externalIPs => some (join externalIPs ", ")
    | none => none

/-- The lodash call `get(detail, 'annotations["kubesphere.io/serviceType"]')`. -/
def serviceType (detail : Detail) : Option String :=
  detail.annotations.bind fun annotations => annotations.lookup "kubesphere.io/serviceType"

/-- The method `getAttrs`; `none` is `undefined`. -/
def getAttrs (env : Env) (params : Params) (store : Store) : Option (List Attr) :=
  let detail := store.detail
  let cluster := params.cluster
  let «namespace» := params.«namespace»
  if isEmpty detail then
    none
  else
    some
      [ { name := env.t "Cluster", value := .text cluster },
        { name := env.t "Project", value := .text «namespace» },
        { name := env.t "Type"
          value := .typeLabel
            (if truthyStr (serviceType detail) then
              env.t ("SERVICE_TYPE_" ++ env.toUpperCase (templateStr (serviceType detail)))
            else
              env.t "Custom Creation")
            [some " (", detail.type, some ")"] },
        { name := env.t "Application", value := .text detail.application },
        { name := env.t "Virtual IP", value := .text detail.clusterIP },
        { name := env.t "External IP", value := .text (externalIP detail) },
        { name := env.t "Session Affinity", value := .text detail.sessionAffinity },
        { name := env.t "Selector"
          value := .text (some (joinSelector env.selectorSep detail.selector)) },
        { name := env.t "DNS", value := .dns (renderDNS store) },
        { name := env.t "Endpoints", value := .endpoints (renderEndpoints store) },
        { name := env.t "Created Time"
          value := .text (some (env.formatLocalTime detail.createTime "YYYY-MM-DD HH:mm:ss")) },
        { name := env.t "Updated Time"
          value := .text (some (env.formatLocalTime detail.updateTime "YYYY-MM-DD HH:mm:ss")) },
        { name := env.t "Creator", value := .text detail.creator } ]

/-! ## Worked examples -/

/-- The store of the worked example: one subset with the address `10.0.0.1`
and the ports `80` and `0`. -/
def exampleEndpointsStore : Store :=
  { detail := { Detail.empty with ownKeys := ["type"], type := some "VirtualIP" }
    workloads := { isLoading := false, type := none }
    pods := { isLoading := false, data := [] }
    endpoints :=
      { isLoading := false
        data := [{ addresses := [{ ip := some "10.0.0.1" }]
                   ports := [{ port := some 80 }, { port := some 0 }] }] } }

/-- A store whose detail type is the headless sentinel, with endpoints that
are loading and hold data. -/
def exampleHeadlessStore : Store :=
  { exampleEndpointsStore with
    detail := { Detail.empty with ownKeys := ["type"], type := some "Headless(ExternalName)" }
    endpoints := { exampleEndpointsStore.endpoints with isLoading := true } }

/-- A store with a non-headless type whose endpoints are loading and hold
data. -/
def exampleLoadingStore : Store :=
  { exampleEndpointsStore with
    endpoints := { exampleEndpointsStore.endpoints with isLoading := true } }

/-- A store whose workload type is "deployments" and that holds two pods. -/
def exampleDeploymentStore : Store :=
  { detail := { Detail.empty with
                ownKeys := ["name", "namespace"], name := some "web", «namespace» := some "prod" }
    workloads := { isLoading := false, type := some "deployments" }
    pods := { isLoading := false
              data := [{ uid := some "u1", name := some "a" }, { uid := some "u2", name := some "b" }] }
    endpoints := { isLoading := false, data := [] } }

/-- The store of the worked example: a statefulset workload with the pods `a`
and `b`. -/
def exampleStatefulStore : Store :=
  { exampleDeploymentStore with workloads := { isLoading := false, type := some "statefulsets" } }

/-- An environment for the worked examples: identity translation, ASCII upper
case, the raw time string, and "," between selector entries. -/
def exampleEnv : Env :=
  { t := fun key => key
    toUpperCase := String.toUpper
    formatLocalTime := fun time _ => templateStr time
    selectorSep := "," }

/-- Route parameters for the worked examples. -/
def exampleParams : Params :=
  { cluster := some "host", «namespace» := some "prod", name := some "web" }

/-- A store whose detail sets every field the External IP value is chosen
from: the type "ExternalName" with an external name, the spec type
"LoadBalancer" with an ingress address, and two external IPs. -/
def exampleExternalNameStore : Store :=
  { exampleDeploymentStore with
    detail :=
      { Detail.empty with
        ownKeys := ["name", "type", "specType", "externalName", "loadBalancerIngress",
          "externalIPs"]
        name := some "web"
        type := some "ExternalName"
        specType := some "LoadBalancer"
        externalName := some "db.example.com"
        loadBalancerIngress := some "192.0.2.10"
        externalIPs := some ["198.51.100.1", "198.51.100.2"] } }

/-- A detail with a two-entry selector, in the namespace `prod`. -/
def exampleSelectorDetail : Detail :=
  { Detail.empty with
    ownKeys := ["name", "namespace", "selector"]
    name := some "web"
    «namespace» := some "prod"
    selector := some [("app", "web"), ("tier", "front")] }

/-! ## Properties of `renderEndpoints` -/

/-- One step of the innermost loop appends the line of the pair, when there is
one. -/
theorem pushEndpoint_toList (addr : Address) (endpoints : Array String) (port : Port) :
    (pushEndpoint addr endpoints port).toList =
      endpoints.toList ++ (endpointLine addr port).toList := by
  unfold pushEndpoint endpointLine
  rcases addr with ⟨_ | ip⟩ <;> rcases port with ⟨_ | n⟩ <;>
    simp [truthyStr, truthyNum, templateStr, templateNum]
  by_cases hip : ip = "" <;> by_cases hn : n = 0 <;> simp [hip, hn]

/-- The loop over a subset's ports appends the lines of one address. -/
theorem foldl_pushEndpoint_toList (addr : Address) (ports : List Port) (endpoints : Array String) :
    (ports.foldl (pushEndpoint addr) endpoints).toList =
      endpoints.toList ++ ports.filterMap (endpointLine addr) := by
  induction ports generalizing endpoints with
  | nil => simp
  | cons port ports ih =>
    rw [List.foldl_cons, ih, pushEndpoint_toList, List.filterMap_cons]
    cases endpointLine addr port <;> simp

/-- The loop over a subset's addresses appends the lines of the subset. -/
theorem foldl_addresses_toList (ports : List Port) (addresses : List Address)
    (endpoints : Array String) :
    (addresses.foldl (fun acc addr => ports.foldl (pushEndpoint addr) acc) endpoints).toList =
      endpoints.toList ++ addresses.flatMap fun addr => ports.filterMap (endpointLine addr) := by
  induction addresses generalizing endpoints with
  | nil => simp
  | cons addr addresses ih =>
    rw [List.foldl_cons, ih, foldl_pushEndpoint_toList, List.flatMap_cons, List.append_assoc]

/-- The three nested loops append the flat endpoint list to the array they
start from. -/
theorem collectEndpoints_toList (data : List Subset) (endpoints : Array String) :
    (collectEndpoints data endpoints).toList = endpoints.toList ++ flattenedEndpoints data := by
  unfold collectEndpoints flattenedEndpoints
  induction data generalizing endpoints with
  | nil => simp
  | cons subset data ih =>
    rw [List.foldl_cons, ih, foldl_addresses_toList, List.flatMap_cons, List.append_assoc]

/-- C2: in `renderEndpoints`, when the type is not "Headless(ExternalName)",
endpoints are not loading and the subset list is non-empty, the output is an
array of paragraphs whose texts are exactly the lines `ip:port` of the
(subset, address, port) triples with truthy ip and port, in
subset-then-address-then-port order, keyed by their index. -/
theorem renderEndpoints_lines (store : Store)
    (htype : store.detail.type ≠ some "Headless(ExternalName)")
    (hload : store.endpoints.isLoading = false)
    (hdata : store.endpoints.data ≠ []) :
    ∃ ps, renderEndpoints store = .lines ps ∧
      ps.map Paragraph.text = flattenedEndpoints store.endpoints.data ∧
      ps.map Paragraph.key =
        (List.range (flattenedEndpoints store.endpoints.data).length).map JSXKey.index := by
  have hlen : store.endpoints.data.length ≠ 0 := by
    intro h
    exact hdata (List.length_eq_zero.mp h)
  refine ⟨_, by simp only [renderEndpoints, htype, hload, hlen, if_false, Bool.false_eq_true]; rfl,
    ?_, ?_⟩
  · rw [List.map_map]
    have h : (Paragraph.text ∘ fun entry : Nat × String =>
        ({ key := .index entry.1, children := [some entry.2] } : Paragraph)) = Prod.snd := by
      funext entry
      simp [Paragraph.text, jsxChild, String.join]
    rw [h, List.enum_map_snd, collectEndpoints_toList]
    simp
  · rw [List.map_map]
    have h : (Paragraph.key ∘ fun entry : Nat × String =>
        ({ key := .index entry.1, children := [some entry.2] } : Paragraph)) =
        JSXKey.index ∘ Prod.fst := by
      funext entry
      rfl
    rw [h, ← List.map_map, List.enum_map_fst, collectEndpoints_toList]
    simp

/-- C2, on the worked example: the subsets
`[{addresses:[{ip:"10.0.0.1"}],ports:[{port:80},{port:0}]}]` give exactly the
one line `10.0.0.1:80`. -/
theorem renderEndpoints_lines_witness :
    flattenedEndpoints exampleEndpointsStore.endpoints.data = ["10.0.0.1:80"] ∧
    ∃ ps, renderEndpoints exampleEndpointsStore = .lines ps ∧
      ps.map Paragraph.text = flattenedEndpoints exampleEndpointsStore.endpoints.data ∧
      ps.map Paragraph.key =
        (List.range (flattenedEndpoints exampleEndpointsStore.endpoints.data).length).map
          JSXKey.index :=
  ⟨by decide, renderEndpoints_lines exampleEndpointsStore (by decide) (by decide) (by decide)⟩

/-- C3: in `renderEndpoints`, for every store whose detail type is
"Headless(ExternalName)", the output is `null`, whatever the endpoints data
and the endpoints loading flag. -/
theorem renderEndpoints_headless (store : Store)
    (htype : store.detail.type = some "Headless(ExternalName)") :
    renderEndpoints store = .null := by
  simp [renderEndpoints, htype]

/-- C3 at a store with the headless type, loading endpoints and endpoint
data: the output is `null`. -/
theorem renderEndpoints_headless_witness :
    exampleHeadlessStore.endpoints.isLoading = true ∧
    exampleHeadlessStore.endpoints.data ≠ [] ∧
    renderEndpoints exampleHeadlessStore = .null :=
  ⟨by decide, by decide, renderEndpoints_headless exampleHeadlessStore (by decide)⟩

/-- C4: in `renderEndpoints`, for every store whose detail type is not
"Headless(ExternalName)": while endpoints are loading the output is the
placeholder `<Loading size={12} />` whatever the data, and when endpoints are
not loading and the subset list is empty the output is the string "-". -/
theorem renderEndpoints_loading_or_dash (store : Store)
    (htype : store.detail.type ≠ some "Headless(ExternalName)") :
    (store.endpoints.isLoading = true → renderEndpoints store = .loading 12) ∧
    (store.endpoints.isLoading = false → store.endpoints.data = [] →
      renderEndpoints store = .text "-") := by
  constructor
  · intro hload
    simp [renderEndpoints, htype, hload]
  · intro hload hdata
    simp [renderEndpoints, htype, hload, hdata]

/-- C4 at a store whose endpoints are loading although data is present: the
output is the placeholder. -/
theorem renderEndpoints_loading_or_dash_witness :
    exampleLoadingStore.endpoints.data ≠ [] ∧
    renderEndpoints exampleLoadingStore = .loading 12 :=
  ⟨by decide,
    (renderEndpoints_loading_or_dash exampleLoadingStore (by decide)).1 (by decide)⟩

/-- C10: `renderEndpoints` can return an empty array of lines rather than the
dash for a non-empty subset list (a single subset whose only port is `0`, or
whose addresses list is empty), and it returns the dash exactly when the type
is not the headless sentinel, endpoints are not loading and the subset list
itself is empty. -/
theorem renderEndpoints_empty_lines_not_dash :
    renderEndpoints
      { exampleEndpointsStore with
        endpoints :=
          { isLoading := false
            data := [{ addresses := [{ ip := some "10.0.0.1" }]
                       ports := [{ port := some 0 }] }] } } = .lines [] ∧
    renderEndpoints
      { exampleEndpointsStore with
        endpoints :=
          { isLoading := false
            data := [{ addresses := [], ports := [{ port := some 80 }] }] } } = .lines [] ∧
    ∀ store : Store, renderEndpoints store = .text "-" ↔
      (store.detail.type ≠ some "Headless(ExternalName)" ∧
        store.endpoints.isLoading = false ∧ store.endpoints.data = []) := by
  refine ⟨by decide, by decide, ?_⟩
  intro store
  unfold renderEndpoints
  by_cases htype : store.detail.type = some "Headless(ExternalName)"
  · simp [htype]
  · cases hload : store.endpoints.isLoading
    · by_cases hdata : store.endpoints.data = []
      · simp [htype, hdata]
      · have hlen : store.endpoints.data.length ≠ 0 := by
          intro h
          exact hdata (List.length_eq_zero.mp h)
        simp [htype, hdata, hlen]
    · simp [htype]

/-! ## Properties of `renderDNS` -/

/-- C5: in `renderDNS`, whenever workloads are loading, or the workload type
is not "statefulsets", or pods are loading, or the pod list is empty, the
output is the single string `<service-name>.<namespace>`, with no pod
enumeration. -/
theorem renderDNS_cluster_name (store : Store)
    (h : store.workloads.isLoading = true ∨ store.workloads.type ≠ some "statefulsets" ∨
      store.pods.isLoading = true ∨ store.pods.data = []) :
    renderDNS store =
      .text (templateStr store.detail.name ++ "." ++ templateStr store.detail.«namespace») := by
  unfold renderDNS
  rcases h with h | h | h | h <;> simp [h]

/-- C5 at a store of a non-statefulset workload type that holds pods: the
output is the single string "web.prod". -/
theorem renderDNS_cluster_name_witness :
    exampleDeploymentStore.pods.data ≠ [] ∧
    renderDNS exampleDeploymentStore = .text "web.prod" :=
  ⟨by decide, renderDNS_cluster_name exampleDeploymentStore (Or.inr (Or.inl (by decide)))⟩

/-- C6: in `renderDNS`, when the workload type is "statefulsets", neither
workloads nor pods are loading and the pod list is non-empty, the output is
an array with one paragraph per pod, in pod order, keyed by the pod's uid, and
the i-th paragraph shows `<pod_i.name>.<service-name>.<namespace>`. -/
theorem renderDNS_pod_lines (store : Store)
    (htype : store.workloads.type = some "statefulsets")
    (hworkloads : store.workloads.isLoading = false)
    (hpods : store.pods.isLoading = false)
    (hdata : store.pods.data ≠ []) :
    ∃ ps, renderDNS store = .lines ps ∧
      ps.length = store.pods.data.length ∧
      ps.map Paragraph.text = store.pods.data.map (fun pod =>
        jsxChild pod.name ++ "." ++ jsxChild store.detail.name ++ "." ++
          jsxChild store.detail.«namespace») ∧
      ps.map Paragraph.key = store.pods.data.map fun pod => JSXKey.uid pod.uid := by
  refine ⟨_, by simp [renderDNS, htype, hworkloads, hpods, hdata]; rfl, ?_, ?_, ?_⟩
  · simp
  · have hdot : jsxChild (some ".") = "." := rfl
    simp [Paragraph.text, String.join, String.append_assoc, hdot]
  · simp

/-- C6, on the worked example: the pods `[{name:"a"},{name:"b"}]` of the
service `web` in `prod` give the two lines "a.web.prod" and "b.web.prod". -/
theorem renderDNS_pod_lines_witness :
    (exampleStatefulStore.pods.data.map fun pod =>
      jsxChild pod.name ++ "." ++ jsxChild exampleStatefulStore.detail.name ++ "." ++
        jsxChild exampleStatefulStore.detail.«namespace») = ["a.web.prod", "b.web.prod"] ∧
    ∃ ps, renderDNS exampleStatefulStore = .lines ps ∧
      ps.length = exampleStatefulStore.pods.data.length ∧
      ps.map Paragraph.text = exampleStatefulStore.pods.data.map (fun pod =>
        jsxChild pod.name ++ "." ++ jsxChild exampleStatefulStore.detail.name ++ "." ++
          jsxChild exampleStatefulStore.detail.«namespace») ∧
      ps.map Paragraph.key = exampleStatefulStore.pods.data.map fun pod => JSXKey.uid pod.uid :=
  ⟨by decide,
    renderDNS_pod_lines exampleStatefulStore (by decide) (by decide) (by decide) (by decide)⟩

/-! ## Properties of `getAttrs` -/

/-- The External IP value reads no annotation: changing the annotations of a
detail does not change it. -/
theorem externalIP_annotations (detail : Detail) (annotations : Option (List (String × String))) :
    externalIP { detail with annotations := annotations } = externalIP detail :=
  rfl

/-- C1: in `getAttrs`, for every non-empty detail, the sixth attribute is
labelled `t('External IP')` and its value follows a fixed precedence: the
external name when the type is "ExternalName"; otherwise the load balancer
ingress when the spec type is "LoadBalancer"; otherwise the external IPs
joined with ", " in their order when there are any; otherwise `undefined`. -/
theorem getAttrs_externalIP (env : Env) (params : Params) (store : Store)
    (hne : isEmpty store.detail = false) :
    ∃ attrs v, getAttrs env params store = some attrs ∧
      attrs[5]? = some { name := env.t "External IP", value := .text v } ∧
      (store.detail.type = some "ExternalName" → v = store.detail.externalName) ∧
      (store.detail.type ≠ some "ExternalName" → store.detail.specType = some "LoadBalancer" →
        v = store.detail.loadBalancerIngress) ∧
      (store.detail.type ≠ some "ExternalName" → store.detail.specType ≠ some "LoadBalancer" →
        ∀ ips, store.detail.externalIPs = some ips → v = some (String.intercalate ", " ips)) ∧
      (store.detail.type ≠ some "ExternalName" → store.detail.specType ≠ some "LoadBalancer" →
        store.detail.externalIPs = none → v = none) := by
  refine ⟨_, externalIP store.detail, by simp only [getAttrs, hne, Bool.false_eq_true, if_false]; rfl,
    by simp, ?_, ?_, ?_, ?_⟩
  · intro htype
    simp [externalIP, htype]
  · intro htype hspec
    simp [externalIP, htype, hspec]
  · intro htype hspec ips hips
    simp [externalIP, htype, hspec, hips, join]
  · intro htype hspec hips
    simp [externalIP, htype, hspec, hips]

/-- C1 at a detail of type "ExternalName" that also has the spec type
"LoadBalancer", an ingress address and external IPs: the External IP value is
the external name. -/
theorem getAttrs_externalIP_witness :
    isEmpty exampleExternalNameStore.detail = false ∧
    ∃ attrs v, getAttrs exampleEnv exampleParams exampleExternalNameStore = some attrs ∧
      attrs[5]? = some { name := "External IP", value := .text v } ∧
      v = some "db.example.com" := by
  refine ⟨by decide, ?_⟩
  obtain ⟨attrs, v, hattrs, hattr, hname, _⟩ :=
    getAttrs_externalIP exampleEnv exampleParams exampleExternalNameStore (by decide)
  exact ⟨attrs, v, hattrs, hattr, hname (by decide)⟩

/-- C8: `getAttrs` returns `undefined` exactly when the detail snapshot is
empty, whatever the route parameters and the workloads, pods and endpoints
state, and a list otherwise; in particular it returns `undefined` for the
empty object. -/
theorem getAttrs_undefined_iff_empty (env : Env) (params : Params) (store : Store) :
    (isEmpty store.detail = true → getAttrs env params store = none) ∧
    (isEmpty store.detail = false → ∃ attrs, getAttrs env params store = some attrs) ∧
    (∀ workloads pods endpoints,
      getAttrs env params
        { detail := Detail.empty, workloads := workloads, pods := pods, endpoints := endpoints } =
        none) := by
  refine ⟨?_, ?_, ?_⟩
  · intro hempty
    simp [getAttrs, hempty]
  · intro hne
    exact ⟨_, by simp only [getAttrs, hne, Bool.false_eq_true, if_false]; rfl⟩
  · intro workloads pods endpoints
    rfl

/-! ## Properties of `getOperations` -/

/-- C9: `getOperations` returns, for every store, exactly five descriptors
with the keys edit, editService, editGateway, editYaml, delete in this order,
triggering the base info, service, gateway, manifest and delete actions; only
the gateway descriptor has a visibility predicate, and that predicate holds of
a record exactly when the record's type equals `SERVICE_TYPES.VirtualIP`, the
string "VirtualIP". -/
theorem getOperations_descriptors (env : Env) (store : Store) :
    (getOperations env store).length = 5 ∧
    (getOperations env store).map Operation.key =
      ["edit", "editService", "editGateway", "editYaml", "delete"] ∧
    (∀ item : Detail, (getOperations env store).map (fun op => (op.onClick item).action) =
      ["resource.baseinfo.edit", "service.edit", "service.gateway.edit", "resource.yaml.edit",
        "resource.delete"]) ∧
    (∀ op ∈ getOperations env store, op.«show».isSome = true ↔ op.key = "editGateway") ∧
    (∀ op ∈ getOperations env store, ∀ visible, op.«show» = some visible →
      ∀ record : Detail, visible record = true ↔ record.type = some SERVICE_TYPES.VirtualIP) ∧
    SERVICE_TYPES.VirtualIP = "VirtualIP" := by
  refine ⟨rfl, rfl, fun _ => rfl, ?_, ?_, rfl⟩
  · intro op hop
    simp only [getOperations, List.mem_cons, List.mem_singleton, List.not_mem_nil, or_false] at hop
    rcases hop with h | h | h | h | h <;> subst h <;> simp
  · intro op hop visible hvisible record
    simp only [getOperations, List.mem_cons, List.mem_singleton, List.not_mem_nil, or_false] at hop
    rcases hop with h | h | h | h | h <;> subst h <;> simp at hvisible
    subst hvisible
    simp

/-! ## Properties of `fetchData` -/

/-- Joining the entries of the empty mapping gives the empty string, whatever
the separator. -/
theorem joinSelector_empty (sep : String) : joinSelector sep (some []) = "" := by
  simp [joinSelector, join, String.intercalate]

/-- C7: in `fetchData`, as the sequence of requests issued: the endpoints
request is issued, with the route parameters, whatever the selector and the
outcome of the detail fetch; the workloads request and the pods request are
each issued if and only if the detail fetch is fulfilled and the joined label
selector is non-empty, and then with the detail's namespace and that joined
selector; so for a detail with an empty selector neither is issued. -/
theorem fetchData_requests (env : Env) (params : Params) (outcome : FetchOutcome) :
    (∀ p, Request.fetchEndpoints p ∈ fetchData env params outcome ↔ p = params) ∧
    (∀ ns labelSelector,
      Request.fetchWorkloads ns labelSelector ∈ fetchData env params outcome ↔
        ∃ detail, outcome = .fulfilled detail ∧
          joinSelector env.selectorSep detail.selector ≠ "" ∧
          ns = detail.«namespace» ∧
          labelSelector = joinSelector env.selectorSep detail.selector) ∧
    (∀ ns labelSelector,
      Request.fetchPods ns labelSelector ∈ fetchData env params outcome ↔
        ∃ detail, outcome = .fulfilled detail ∧
          joinSelector env.selectorSep detail.selector ≠ "" ∧
          ns = detail.«namespace» ∧
          labelSelector = joinSelector env.selectorSep detail.selector) ∧
    (∀ detail, outcome = .fulfilled detail → detail.selector = some [] →
      ∀ ns labelSelector,
        Request.fetchWorkloads ns labelSelector ∉ fetchData env params outcome ∧
        Request.fetchPods ns labelSelector ∉ fetchData env params outcome) := by
  have hw : ∀ ns labelSelector,
      Request.fetchWorkloads ns labelSelector ∈ fetchData env params outcome ↔
        ∃ detail, outcome = .fulfilled detail ∧
          joinSelector env.selectorSep detail.selector ≠ "" ∧
          ns = detail.«namespace» ∧
          labelSelector = joinSelector env.selectorSep detail.selector := by
    intro ns labelSelector
    cases outcome with
    | fulfilled detail =>
      by_cases hsel : joinSelector env.selectorSep detail.selector = ""
      · simp [fetchData, onDetailFetched, isEmptyStr, hsel]
      · simp [fetchData, onDetailFetched, isEmptyStr, hsel]
    | rejected => simp [fetchData]
    | pending => simp [fetchData]
  have hp : ∀ ns labelSelector,
      Request.fetchPods ns labelSelector ∈ fetchData env params outcome ↔
        ∃ detail, outcome = .fulfilled detail ∧
          joinSelector env.selectorSep detail.selector ≠ "" ∧
          ns = detail.«namespace» ∧
          labelSelector = joinSelector env.selectorSep detail.selector := by
    intro ns labelSelector
    cases outcome with
    | fulfilled detail =>
      by_cases hsel : joinSelector env.selectorSep detail.selector = ""
      · simp [fetchData, onDetailFetched, isEmptyStr, hsel]
      · simp [fetchData, onDetailFetched, isEmptyStr, hsel]
    | rejected => simp [fetchData]
    | pending => simp [fetchData]
  refine ⟨?_, hw, hp, ?_⟩
  · intro p
    cases outcome with
    | fulfilled detail =>
      by_cases hsel : joinSelector env.selectorSep detail.selector = ""
      · simp [fetchData, onDetailFetched, isEmptyStr, hsel]
      · simp [fetchData, onDetailFetched, isEmptyStr, hsel]
    | rejected => simp [fetchData]
    | pending => simp [fetchData]
  · intro detail hout hsel ns labelSelector
    have hempty : joinSelector env.selectorSep detail.selector = "" := by
      rw [hsel]
      exact joinSelector_empty env.selectorSep
    constructor
    · rw [hw]
      rintro ⟨detail', hout', hne, _, _⟩
      rw [hout] at hout'
      cases hout'
      exact hne hempty
    · rw [hp]
      rintro ⟨detail', hout', hne, _, _⟩
      rw [hout] at hout'
      cases hout'
      exact hne hempty

/-- On a fulfilled detail fetch with a two-entry selector, `fetchData` issues
the detail and endpoints requests and then the workloads and pods requests. -/
theorem fetchData_example_fulfilled :
    fetchData exampleEnv exampleParams (.fulfilled exampleSelectorDetail) =
      [.fetchDetail exampleParams, .fetchEndpoints exampleParams,
        .fetchWorkloads (some "prod") "app=web,tier=front",
        .fetchPods (some "prod") "app=web,tier=front"] := by
  decide

/-- On a rejected detail fetch, or on a fulfilled one that leaves the empty
object, `fetchData` issues the detail and endpoints requests only. -/
theorem fetchData_example_no_selector :
    fetchData exampleEnv exampleParams .rejected =
      [.fetchDetail exampleParams, .fetchEndpoints exampleParams] ∧
    fetchData exampleEnv exampleParams (.fulfilled Detail.empty) =
      [.fetchDetail exampleParams, .fetchEndpoints exampleParams] := by
  decide

end ServiceDetail
